import Mathlib

/-!
Verification of the payment-link slice of the adminPanelBackend repository.

The definitions below are a shallow embedding of the JavaScript sources:
  * src/utils/event/Event.js        (getOption / setOption / stringPad)
  * src/utils/functions.js          (date)
  * src/services/payment/PaymentService.js (orchestrator, webhook reconciler,
    sequence allocator #generatePaymentId, #updatePaymentLinkStatus)
  * src/providers/payment/class-razorpay.js (Razorpay adapter)
  * src/controllers/PaymentController.js    (webhook HTTP handler)
  * src/utils/db/Mysql.js           (query-builder insert/update semantics)

External collaborators (the MySQL connection, the provider HTTP calls, the
contact table contents) are modelled as explicit parameters.  JavaScript
runtime details that the control flow depends on are modelled explicitly:
property access on the `false` sentinel yields `undefined` (never throws),
and the mysql2 driver rejects `undefined` bind parameters with an error
("Bind parameters must not contain undefined"), which the service catches.
-/

namespace AdminPanel

/-- JavaScript values that flow into database bind parameters in this slice:
strings, numbers (integral in all code paths of this slice), and `undefined`. -/
inductive JVal where
  | undefined
  | str (s : String)
  | int (n : Int)
deriving DecidableEq, Repr

def JVal.isUndefined : JVal → Bool
  | .undefined => true
  | _ => false

/-- Embeds Event.js `stringPad` = `String(num).padStart(length, char)`; the caller
passes the already stringified number. -/
def padStart (s : String) (len : Nat) (c : Char) : String :=
  if len ≤ s.length then s else String.mk (List.replicate (len - s.length) c) ++ s

def stringPad (numStr : String) (len : Nat) (c : Char) : String :=
  padStart numStr len c

/-- Maximal run of leading decimal digits. -/
def leadingDigits : List Char → List Char
  | [] => []
  | c :: cs => if c.isDigit then c :: leadingDigits cs else []

def digitsToNat : List Char → Nat → Nat
  | [], acc => acc
  | c :: cs, acc => digitsToNat cs (acc * 10 + (c.toNat - 48))

def parseDigits (cs : List Char) : Option Nat :=
  match leadingDigits cs with
  | [] => none
  | ds => some (digitsToNat ds 0)

/-- JavaScript `parseInt(s)` (radix-10 path, as used on the stored counter):
skip leading whitespace, optional sign, then the maximal run of decimal digits;
`none` models `NaN`. -/
def parseIntJS (s : String) : Option Int :=
  match s.toList.dropWhile Char.isWhitespace with
  | '-' :: rest => (parseDigits rest).map (fun n => -(n : Int))
  | '+' :: rest => (parseDigits rest).map (fun n => (n : Int))
  | rest => (parseDigits rest).map (fun n => (n : Int))

/-- `String(n)` for the JS number stored back by `setOption`; `none` (NaN) prints
as "NaN". -/
def jsNumToString : Option Int → String
  | none => "NaN"
  | some n => toString n

/-- JSON-object key lookup, as produced by `JSON.parse` of the configured maps
(all configured maps are duplicate-key free). -/
def lookupJS (m : List (String × String)) (k : String) : Option String :=
  (m.find? (fun p => p.1 == k)).map (fun p => p.2)

/-- JS string coercion of an object-property lookup: a missing key concatenates
as the literal "undefined". -/
def jsUndefObjStr : Option String → String
  | some s => s
  | none => "undefined"

/-- The option rows consumed by the payment slice (tblOptions), already parsed:
`paymentLinkIdPrefixes` embeds JSON.parse of `paymentLinkIdPrefix`, and
`cashfreeLinkStatusMap` embeds JSON.parse of `cashfreeLinkStatusMap`. -/
structure Config where
  paymentLinkNumber : String
  paymentLinkIdPrefixes : List (String × String)
  currentFinancialYear : String
  cashfreeLinkStatusMap : List (String × String)
deriving DecidableEq, Repr

/-- Embeds PaymentService `#generatePaymentId(linkType)`: reads the counter,
the prefix map and the financial year, builds
`prefix[linkType] + "-" + year + "-" + stringPad(parseInt(counter) + 1, 6, "0")`
and writes `parseInt(counter) + 1` back through `setOption` before returning.
A `linkType` missing from the prefix map does not throw in JavaScript: the
lookup yields `undefined`, which string concatenation renders as "undefined",
and the counter write-back still happens. -/
def generatePaymentId (cfg : Config) (linkType : String) : String × Config :=
  let nextNum := (parseIntJS cfg.paymentLinkNumber).map (fun n => n + 1)
  let paymentId :=
    jsUndefObjStr (lookupJS cfg.paymentLinkIdPrefixes linkType)
      ++ "-" ++ cfg.currentFinancialYear
      ++ "-" ++ stringPad (jsNumToString nextNum) 6 '0'
  (paymentId, { cfg with paymentLinkNumber := jsNumToString nextNum })

/-- A persisted row of tblPaymentLinks.  The eleven leading fields are the
columns written by the orchestrator's INSERT (as `JVal`, since a failed gateway
call feeds `undefined` into them); the three timestamp columns are absent from
the INSERT, hence SQL NULL (`none`) on a fresh row, and are set only by the
webhook reconciler's UPDATE. -/
structure PaymentLinkRow where
  linkPgId : JVal
  linkIdFormatted : JVal
  linkGateway : JVal
  linkContactId : JVal
  linkUrl : JVal
  linkQr : JVal
  linkPurpose : JVal
  linkAmount : JVal
  linkStatus : JVal
  linkExpiry : JVal
  linkNotification : JVal
  linkPaidAt : Option String
  linkExpiredAt : Option String
  linkFailedAt : Option String
deriving DecidableEq, Repr

/-- The canonical link result an adapter returns on success
(`class-razorpay.js` builds exactly these fields). -/
structure GatewayLink where
  linkId : String
  linkIdFormatted : String
  linkGateway : Int
  linkUrl : String
  linkQr : String
  linkPurpose : String
  linkAmount : Int
deriving DecidableEq, Repr

/-- One row of the contact-information join the orchestrator runs
(tblContacts x tblContactInformations, already filtered as in the source). -/
structure ContactInfoRow where
  contactFirstName : String
  contactLastName : String
  contactInformationCategory : String
  contactInformationValue : String
deriving DecidableEq, Repr

structure CustomerDetails where
  customer_name : String
  customer_phone : Option String
  customer_email : Option String
deriving DecidableEq, Repr

/-- The `customer.forEach` loop: category "0" rows overwrite `customer_phone`,
category "2" rows overwrite `customer_email` (last row wins, as in the source). -/
def foldContactChannels (cd : CustomerDetails) : List ContactInfoRow → CustomerDetails
  | [] => cd
  | c :: cs =>
    let cd1 :=
      if c.contactInformationCategory == "0" then
        { cd with customer_phone := some c.contactInformationValue }
      else if c.contactInformationCategory == "2" then
        { cd with customer_email := some c.contactInformationValue }
      else cd
    foldContactChannels cd1 cs

/-- Builds `customerDetails` from the query result.  An empty result makes
`customer[0].contactFirstName` throw a TypeError in JavaScript (caught by the
orchestrator), modelled as `none`. -/
def buildCustomerDetails : List ContactInfoRow → Option CustomerDetails
  | [] => none
  | c :: cs =>
    some (foldContactChannels
      { customer_name := c.contactFirstName ++ " " ++ c.contactLastName
        customer_phone := none
        customer_email := none } (c :: cs))

/-- The canonical gateway request the orchestrator builds (PaymentService.js);
the constant `notes`/`meta` objects of the source are fixed values carrying no
varying data and are omitted from the record. -/
structure GatewayRequest where
  linkAmount : Int
  currency : String
  partialAmount : String
  linkIdFormatted : String
  partialPayments : Bool
  customerDetails : CustomerDetails
  linkExpiry : String
  linkPurpose : String
  linkNotification : String
  autoReminders : Bool
deriving DecidableEq, Repr

/-- The `linkConfig` object assembled by PaymentController.createPaymentLink
from the request body. -/
structure LinkConfig where
  amount : Int
  linkExpiryTime : String
  linkPurpose : String
  linkNotify : String
deriving DecidableEq, Repr

/-- Property access `paymentLink.<field>` where `paymentLink` may be the `false`
failure sentinel: on `false` it yields `undefined` (JavaScript never throws on
property access over a boolean). -/
def jvalStrOf (pl : Option GatewayLink) (f : GatewayLink → String) : JVal :=
  match pl with
  | some g => .str (f g)
  | none => .undefined

def jvalIntOf (pl : Option GatewayLink) (f : GatewayLink → Int) : JVal :=
  match pl with
  | some g => .int (f g)
  | none => .undefined

/-- The `linkDetails` object the orchestrator inserts (PaymentService.js). -/
def mkLinkDetails (pl : Option GatewayLink) (contactId : Int) (lc : LinkConfig) :
    PaymentLinkRow :=
  { linkPgId := jvalStrOf pl (fun g => g.linkId)
    linkIdFormatted := jvalStrOf pl (fun g => g.linkIdFormatted)
    linkGateway := jvalIntOf pl (fun g => g.linkGateway)
    linkContactId := .int contactId
    linkUrl := jvalStrOf pl (fun g => g.linkUrl)
    linkQr := jvalStrOf pl (fun g => g.linkQr)
    linkPurpose := jvalStrOf pl (fun g => g.linkPurpose)
    linkAmount := jvalIntOf pl (fun g => g.linkAmount)
    linkStatus := .str "0"
    linkExpiry := .str lc.linkExpiryTime
    linkNotification := .str lc.linkNotify
    linkPaidAt := none
    linkExpiredAt := none
    linkFailedAt := none }

def insertedValues (r : PaymentLinkRow) : List JVal :=
  [r.linkPgId, r.linkIdFormatted, r.linkGateway, r.linkContactId, r.linkUrl,
   r.linkQr, r.linkPurpose, r.linkAmount, r.linkStatus, r.linkExpiry,
   r.linkNotification]

/-- Mysql.js `insert(data)` via `connection.execute`: the mysql2 driver rejects
`undefined` bind parameters ("Bind parameters must not contain undefined"), so
an insert whose values include `undefined` throws (`none`); otherwise the row
is appended. -/
def dbInsert (rows : List PaymentLinkRow) (r : PaymentLinkRow) :
    Option (List PaymentLinkRow) :=
  if (insertedValues r).any JVal.isUndefined then none else some (rows ++ [r])

/-- The externally observable side effects of one orchestrator run, in program
order: the allocator's counter write-back, the gateway call (tagged with the
reference id it is given), and the row insert. -/
inductive Effect where
  | setOptionCounter (value : String)
  | gatewayCall (referenceId : String)
  | insertRow (row : PaymentLinkRow)
deriving DecidableEq, Repr

/-- True when no gateway call occurs before the first counter write-back in the
effect trace. -/
def counterWriteFirst : List Effect → Bool
  | [] => true
  | .gatewayCall _ :: _ => false
  | .setOptionCounter _ :: _ => true
  | .insertRow _ :: rest => counterWriteFirst rest

structure RunResult where
  result : Option GatewayLink
  cfg : Config
  rows : List PaymentLinkRow
  trace : List Effect
deriving DecidableEq, Repr

/-- Embeds PaymentService.createPaymentLink.  `gateway` stands for the resolved
adapter's createPaymentLink (`none` = the `false` failure sentinel); `customer`
is the contact-information query result; `rows` is the tblPaymentLinks table.
Control flow follows the source: allocate the reference id (counter written
back inside), build customerDetails (empty result throws, caught, returns
false), call the gateway, insert `linkDetails` (a failed gateway makes every
gateway-derived column `undefined`, which the driver rejects, so the catch
returns false with no row persisted).  The trailing WhatsApp notification is an
external fire-and-continue side effect not modelled here. -/
def createPaymentLinkRun (gateway : GatewayRequest → Option GatewayLink)
    (cfg : Config) (rows : List PaymentLinkRow) (customer : List ContactInfoRow)
    (linkConfig : LinkConfig) (contactId : Int) (linkType : String) : RunResult :=
  let idCfg := generatePaymentId cfg linkType
  let cfg1 := idCfg.2
  let tr0 := [Effect.setOptionCounter cfg1.paymentLinkNumber]
  match buildCustomerDetails customer with
  | none => { result := none, cfg := cfg1, rows := rows, trace := tr0 }
  | some cd =>
    let request : GatewayRequest :=
      { linkAmount := linkConfig.amount
        currency := "INR"
        partialAmount := "0"
        linkIdFormatted := idCfg.1
        partialPayments := false
        customerDetails := cd
        linkExpiry := linkConfig.linkExpiryTime
        linkPurpose := linkConfig.linkPurpose
        linkNotification := linkConfig.linkNotify
        autoReminders := false }
    let pl := gateway request
    let tr1 := tr0 ++ [Effect.gatewayCall idCfg.1]
    let details := mkLinkDetails pl contactId linkConfig
    match dbInsert rows details with
    | none => { result := none, cfg := cfg1, rows := rows, trace := tr1 }
    | some rows1 =>
      { result := pl, cfg := cfg1, rows := rows1
        trace := tr1 ++ [Effect.insertRow details] }

def pad2 (n : Nat) : String := padStart (toString n) 2 '0'

/-- Broken-down instant, with a 0-based month exactly like JS `getMonth()`. -/
structure DateTimeUtc where
  year : Nat
  month0 : Nat
  day : Nat
  hour : Nat
  minute : Nat
  second : Nat
deriving DecidableEq, Repr

def isLeapYear (y : Nat) : Bool :=
  (y % 4 == 0 && y % 100 != 0) || y % 400 == 0

def daysInMonth (y m1 : Nat) : Nat :=
  if m1 == 2 then (if isLeapYear y then 29 else 28)
  else if m1 == 4 || m1 == 6 || m1 == 9 || m1 == 11 then 30
  else 31

def digit2 (a b : Char) : Option Nat :=
  if a.isDigit && b.isDigit then some ((a.toNat - 48) * 10 + (b.toNat - 48))
  else none

def digit4 (a b c e : Char) : Option Nat :=
  if a.isDigit && b.isDigit && c.isDigit && e.isDigit then
    some ((a.toNat - 48) * 1000 + (b.toNat - 48) * 100 + (c.toNat - 48) * 10
      + (e.toNat - 48))
  else none

/-- `new Date(input)` for the webhook event times handled by this slice:
an ISO string of the exact shape YYYY-MM-DDTHH:mm:ssZ, range-checked the way
ECMAScript range-checks ISO dates (out-of-range fields give an Invalid Date);
`none` models an Invalid Date, which makes `date()` throw.  The formatter below
reads local-time components; the model assumes a UTC server clock, matching the
spec's scenario.  (Other textual date formats accepted by `new Date` are not
produced by the gateways and are treated as invalid here.) -/
def parseIsoUtc (s : String) : Option DateTimeUtc :=
  match s.toList with
  | [y1, y2, y3, y4, a1, m1, m2, a2, d1, d2, a3, h1, h2, a4, n1, n2, a5, s1, s2, a6] =>
    if a1 == '-' && a2 == '-' && a3 == 'T' && a4 == ':' && a5 == ':' && a6 == 'Z' then
      match digit4 y1 y2 y3 y4, digit2 m1 m2, digit2 d1 d2,
            digit2 h1 h2, digit2 n1 n2, digit2 s1 s2 with
      | some yr, some mo, some dy, some ho, some mi, some se =>
        if 1 ≤ mo && mo ≤ 12 && 1 ≤ dy && dy ≤ daysInMonth yr mo
            && ho ≤ 23 && mi ≤ 59 && se ≤ 59 then
          some { year := yr, month0 := mo - 1, day := dy
                 hour := ho, minute := mi, second := se }
        else none
      | _, _, _, _, _, _ => none
    else none
  | _ => none

/-- functions.js `date("YYYY-MM-DD HH:mm:ss", input)` on a parsed instant: the
placeholder substitution yields year, zero-padded month+1, day, hours, minutes
and seconds joined exactly like the format string. -/
def formatYmdHms (t : DateTimeUtc) : String :=
  toString t.year ++ "-" ++ pad2 (t.month0 + 1) ++ "-" ++ pad2 t.day ++ " "
    ++ pad2 t.hour ++ ":" ++ pad2 t.minute ++ ":" ++ pad2 t.second

/-- `date("YYYY-MM-DD HH:mm:ss", dateInput)`; `none` models the thrown
"Invalid date input" error. -/
def dateYmdHms (dateInput : String) : Option String :=
  (parseIsoUtc dateInput).map formatYmdHms

/-- The `data` object of a PAYMENT_LINK_EVENT webhook payload, as destructured
by handleWebhook. -/
structure WebhookData where
  cf_link_id : String
  link_id : String
  link_amount_paid : String
  link_status : String
deriving DecidableEq, Repr

structure WebhookEvent where
  type : String
  data : WebhookData
  event_time : String
deriving DecidableEq, Repr

/-- Which nullable timestamp column the `switch (linkConfig.linkStatus)` of
`#updatePaymentLinkStatus` writes: PAID sets linkPaidAt, EXPIRED sets
linkExpiredAt, CANCELLED and PARTIALLY_PAID set linkFailedAt, anything else
sets no timestamp. -/
inductive TsField where
  | paid
  | expired
  | failed
deriving DecidableEq, Repr

def tsFieldFor : String → Option TsField
  | "PAID" => some .paid
  | "EXPIRED" => some .expired
  | "CANCELLED" => some .failed
  | "PARTIALLY_PAID" => some .failed
  | _ => none

/-- The UPDATE's WHERE clause: `linkPgId = ? AND linkIdFormatted = ?`. -/
def matchesLink (pgLinkId linkIdFormated : String) (r : PaymentLinkRow) : Bool :=
  r.linkPgId == JVal.str pgLinkId && r.linkIdFormatted == JVal.str linkIdFormated

/-- The SET clause applied to one matched row: the mapped status plus at most
one timestamp column. -/
def applyLinkUpdate (status : String) (ts : Option (TsField × String))
    (r : PaymentLinkRow) : PaymentLinkRow :=
  let r1 := { r with linkStatus := JVal.str status }
  match ts with
  | none => r1
  | some (.paid, t) => { r1 with linkPaidAt := some t }
  | some (.expired, t) => { r1 with linkExpiredAt := some t }
  | some (.failed, t) => { r1 with linkFailedAt := some t }

/-- What `#updatePaymentLinkStatus` will write, or `none` when the attempt is
aborted by a caught exception: either `date()` throws on an invalid event time,
or the vendor status is missing from `cashfreeLinkStatusMap` so the SET binds
`undefined`, which the driver rejects.  Either way the catch returns `false`
and no row changes. -/
def updateDecision (statusMap : List (String × String))
    (vendorStatus eventTime : String) : Option (String × Option (TsField × String)) :=
  match tsFieldFor vendorStatus with
  | some f =>
    match dateYmdHms eventTime with
    | none => none
    | some t =>
      match lookupJS statusMap vendorStatus with
      | none => none
      | some v => some (v, some (f, t))
  | none =>
    match lookupJS statusMap vendorStatus with
    | none => none
    | some v => some (v, none)

/-- Embeds `#updatePaymentLinkStatus`: maps the vendor status through the
configured status map, picks the timestamp column, and updates every row
matching `(linkPgId, linkIdFormatted)`.  The Bool mirrors the source's
`affectedRows > 0` result (approximated as the existence of a matched row);
no theorem below depends on it. -/
def updatePaymentLinkStatus (statusMap : List (String × String))
    (pgLinkId linkIdFormated vendorStatus eventTime : String)
    (rows : List PaymentLinkRow) : Option Bool × List PaymentLinkRow :=
  match updateDecision statusMap vendorStatus eventTime with
  | none => (some false, rows)
  | some (v, ts) =>
    (some (rows.any (matchesLink pgLinkId linkIdFormated)),
     rows.map (fun r =>
       if matchesLink pgLinkId linkIdFormated r then applyLinkUpdate v ts r else r))

/-- Embeds PaymentService.handleWebhook: only `type == "PAYMENT_LINK_EVENT"`
is recognized; any other type falls through the switch and returns `undefined`
(`none`) without touching the database. -/
def handleWebhook (cfg : Config) (ev : WebhookEvent)
    (rows : List PaymentLinkRow) : Option Bool × List PaymentLinkRow :=
  if ev.type == "PAYMENT_LINK_EVENT" then
    updatePaymentLinkStatus cfg.cashfreeLinkStatusMap
      ev.data.cf_link_id ev.data.link_id ev.data.link_status ev.event_time rows
  else (none, rows)

/-- Embeds PaymentController.getPaymentDetails: logs, runs handleWebhook
(whose internal errors are all caught), and unconditionally responds 200. -/
def getPaymentDetails (cfg : Config) (body : WebhookEvent)
    (rows : List PaymentLinkRow) : Nat × List PaymentLinkRow :=
  (200, (handleWebhook cfg body rows).2)

/-- A sequence of inbound webhook deliveries applied to the table. -/
def applyWebhookEvents (cfg : Config) (events : List WebhookEvent)
    (rows : List PaymentLinkRow) : List PaymentLinkRow :=
  events.foldl (fun rs e => (handleWebhook cfg e rs).2) rows

/-- The credentials `RazorpayConnector.#setup` resolves from the
payment-gateway table; `none` models a failed setup (no matching active row),
after which each public operation returns `false` without a provider call. -/
structure RzpSetup where
  pgId : Int
  accountNumber : String
deriving DecidableEq, Repr

/-- The vendor-shaped request `RazorpayConnector.createPaymentLink` builds;
`amount` is `parseFloat(linkConfig.linkAmount) * 100` (minor units). -/
structure RzpLinkRequest where
  reference_id : String
  amount : Int
  currency : String
  accept_partial : Bool
  description : String
  customer_name : String
  customer_email : Option String
  customer_contact : Option String
  notify : String
  reminder_enable : Bool
deriving DecidableEq, Repr

/-- The provider response fields the adapter reads; `error` is the truthiness
of `pgResponse.error`.  Razorpay echoes the requested (minor-unit) amount in
`amount`. -/
structure RzpLinkResponse where
  error : Bool
  id : String
  reference_id : String
  short_url : String
  description : String
  amount : Int
deriving DecidableEq, Repr

/-- Embeds RazorpayConnector.createPaymentLink: setup, vendor-shape mapping
(amount times 100), provider call (`provider` returning `none` models a thrown
transport error, caught and turned into `false`), error check, and
normalization into the canonical link result with `linkQr := ""` and
`linkAmount := pgResponse.amount`. -/
def razorpayCreatePaymentLink (setup : Option RzpSetup)
    (provider : RzpLinkRequest → Option RzpLinkResponse)
    (linkConfig : GatewayRequest) : Option GatewayLink :=
  match setup with
  | none => none
  | some su =>
    let request : RzpLinkRequest :=
      { reference_id := linkConfig.linkIdFormatted
        amount := linkConfig.linkAmount * 100
        currency := linkConfig.currency
        accept_partial := linkConfig.partialPayments
        description := linkConfig.linkPurpose
        customer_name := linkConfig.customerDetails.customer_name
        customer_email := linkConfig.customerDetails.customer_email
        customer_contact := linkConfig.customerDetails.customer_phone
        notify := linkConfig.linkNotification
        reminder_enable := linkConfig.autoReminders }
    match provider request with
    | none => none
    | some resp =>
      if resp.error then none
      else
        some { linkId := resp.id
               linkIdFormatted := resp.reference_id
               linkGateway := su.pgId
               linkUrl := resp.short_url
               linkQr := ""
               linkPurpose := resp.description
               linkAmount := resp.amount }

structure BankDetails where
  customerName : String
  accountNumber : String
  ifscCode : String
deriving DecidableEq, Repr

structure CardDetails where
  cardNumber : String
  cardType : String
deriving DecidableEq, Repr

/-- The `fund_account` object of a Razorpay payout request; `emptyObj` is the
initial `var fundAccount = {}` left untouched when no switch case matches. -/
inductive FundAccount where
  | emptyObj
  | vpa (address : Option String)
  | bankAccount (name accountNumber ifsc : String)
  | card (cardNumber cardNetwork : String)
deriving DecidableEq, Repr

/-- The payout-side `linkConfig` the service hands the adapter; the optional
sub-objects are absent (`none`) when the request body omitted them, in which
case the bank/cards switch branches throw on property access (caught). -/
structure PayoutLinkConfig where
  linkAmount : Int
  currency : String
  linkIdFormatted : String
  customer_name : String
  purpose : String
  description : String
  upiId : Option String
  bankDetails : Option BankDetails
  cardDetails : Option CardDetails
deriving DecidableEq, Repr

/-- The `switch (payoutType)` of RazorpayConnector.createPayoutLink; an
unlisted type leaves `fundAccount` as the empty object (`some .emptyObj`),
while "bank"/"cards" with a missing sub-object throw (`none`, caught). -/
def buildFundAccount (lc : PayoutLinkConfig) (payoutType : String) :
    Option FundAccount :=
  if payoutType == "upi" then some (.vpa lc.upiId)
  else if payoutType == "bank" then
    lc.bankDetails.map (fun b => .bankAccount b.customerName b.accountNumber b.ifscCode)
  else if payoutType == "cards" then
    lc.cardDetails.map (fun c => .card c.cardNumber c.cardType)
  else some .emptyObj

structure RzpPayoutRequest where
  account_number : String
  reference_id : String
  amount : Int
  currency : String
  purpose : String
  fund_account : FundAccount
  recipient : String
  description : String
  queue_if_low_balance : Bool
deriving DecidableEq, Repr

/-- The raw axios response returned as-is on success; `error` is the
truthiness of `pgResponse.error` (an axios response object carries no such
field, but the source checks it, so the model keeps the check). -/
structure RzpPayoutResponse where
  error : Bool
  payload : String
deriving DecidableEq, Repr

def mkPayoutRequest (su : RzpSetup) (lc : PayoutLinkConfig)
    (fa : FundAccount) : RzpPayoutRequest :=
  { account_number := su.accountNumber
    reference_id := lc.linkIdFormatted
    amount := lc.linkAmount * 100
    currency := lc.currency
    purpose := lc.purpose
    fund_account := fa
    recipient := lc.customer_name
    description := lc.description
    queue_if_low_balance := true }

/-- Embeds RazorpayConnector.createPayoutLink: setup, the fund-account switch,
the axios POST (`provider` returning `none` models a thrown transport error or
non-2xx status, caught and turned into `false`), and the raw response returned
unchanged. -/
def razorpayCreatePayoutLink (setup : Option RzpSetup)
    (provider : RzpPayoutRequest → Option RzpPayoutResponse)
    (lc : PayoutLinkConfig) (payoutType : String) : Option RzpPayoutResponse :=
  match setup with
  | none => none
  | some su =>
    match buildFundAccount lc payoutType with
    | none => none
    | some fa =>
      match provider (mkPayoutRequest su lc fa) with
      | none => none
      | some resp => if resp.error then none else some resp

/-! Concrete fixtures used by the scenario theorems and witnesses. -/

/-- The status map installed by alterQuires.sql. -/
def stdStatusMap : List (String × String) :=
  [("PAID", "1"), ("PARTIALLY_PAID", "4"), ("EXPIRED", "2"), ("CANCELLED", "5")]

def cfgC1 : Config :=
  { paymentLinkNumber := "41"
    paymentLinkIdPrefixes := [("invoice", "INV")]
    currentFinancialYear := "2425"
    cashfreeLinkStatusMap := stdStatusMap }

def custC1 : List ContactInfoRow :=
  [{ contactFirstName := "Jay", contactLastName := "Chauhan"
     contactInformationCategory := "0", contactInformationValue := "9876543210" },
   { contactFirstName := "Jay", contactLastName := "Chauhan"
     contactInformationCategory := "2", contactInformationValue := "jay.example.in" }]

def linkCfgC1 : LinkConfig :=
  { amount := 500, linkExpiryTime := "2025-01-01T12:00:00Z"
    linkPurpose := "Invoice #1", linkNotify := "sms" }

/-- A well-behaved gateway stub for the end-to-end scenario: echoes the
reference id and purpose and reports the amount the way Razorpay does
(minor units = requested major amount times 100). -/
def echoGateway : GatewayRequest → Option GatewayLink := fun req =>
  some { linkId := "plink_000000000001"
         linkIdFormatted := req.linkIdFormatted
         linkGateway := 1
         linkUrl := "https://rzp.io/i/test0001"
         linkQr := ""
         linkPurpose := req.linkPurpose
         linkAmount := req.linkAmount * 100 }

def runC1 : RunResult :=
  createPaymentLinkRun echoGateway cfgC1 [] custC1 linkCfgC1 7 "invoice"

def cfgC2 : Config :=
  { paymentLinkNumber := "42"
    paymentLinkIdPrefixes := [("invoice", "INV")]
    currentFinancialYear := "2425"
    cashfreeLinkStatusMap := [("PAID", "1")] }

/-- A stored link as C2 describes it: linkPgId "pg_1",
linkIdFormatted "INV-2425-000042", linkStatus 0, no timestamps. -/
def rowC2 : PaymentLinkRow :=
  { linkPgId := .str "pg_1"
    linkIdFormatted := .str "INV-2425-000042"
    linkGateway := .int 1
    linkContactId := .int 7
    linkUrl := .str "https://rzp.io/i/test0001"
    linkQr := .str ""
    linkPurpose := .str "Invoice #1"
    linkAmount := .int 50000
    linkStatus := .str "0"
    linkExpiry := .str "2025-01-01T12:00:00Z"
    linkNotification := .str "sms"
    linkPaidAt := none
    linkExpiredAt := none
    linkFailedAt := none }

def evC2 : WebhookEvent :=
  { type := "PAYMENT_LINK_EVENT"
    data := { cf_link_id := "pg_1", link_id := "INV-2425-000042"
              link_amount_paid := "500", link_status := "PAID" }
    event_time := "2025-01-01T10:00:00Z" }

def cfgStd : Config :=
  { paymentLinkNumber := "42"
    paymentLinkIdPrefixes := [("invoice", "INV")]
    currentFinancialYear := "2425"
    cashfreeLinkStatusMap := stdStatusMap }

def evExpired : WebhookEvent :=
  { type := "PAYMENT_LINK_EVENT"
    data := { cf_link_id := "pg_1", link_id := "INV-2425-000042"
              link_amount_paid := "0", link_status := "EXPIRED" }
    event_time := "2025-01-02T00:00:00Z" }

def evPaid : WebhookEvent :=
  { type := "PAYMENT_LINK_EVENT"
    data := { cf_link_id := "pg_1", link_id := "INV-2425-000042"
              link_amount_paid := "500", link_status := "PAID" }
    event_time := "2025-01-03T08:30:00Z" }

/-! Helper lemmas shared by several claim theorems. -/

lemma applyLinkUpdate_status (v : String) (ts : Option (TsField × String))
    (r : PaymentLinkRow) : (applyLinkUpdate v ts r).linkStatus = JVal.str v := by
  rcases ts with _ | ⟨f, t⟩
  · rfl
  · cases f <;> rfl

lemma matchesLink_applyLinkUpdate (a b v : String) (ts : Option (TsField × String))
    (r : PaymentLinkRow) :
    matchesLink a b (applyLinkUpdate v ts r) = matchesLink a b r := by
  rcases ts with _ | ⟨f, t⟩
  · rfl
  · cases f <;> rfl

lemma applyLinkUpdate_idem (v : String) (ts : Option (TsField × String))
    (r : PaymentLinkRow) :
    applyLinkUpdate v ts (applyLinkUpdate v ts r) = applyLinkUpdate v ts r := by
  rcases ts with _ | ⟨f, t⟩
  · rfl
  · cases f <;> rfl

lemma updateDecision_lookup (sm : List (String × String)) (vs et v : String)
    (ts : Option (TsField × String)) (h : updateDecision sm vs et = some (v, ts)) :
    lookupJS sm vs = some v := by
  unfold updateDecision at h
  cases hf : tsFieldFor vs <;> rw [hf] at h
  · cases hl : lookupJS sm vs <;> rw [hl] at h
    · exact absurd h (by simp)
    · simp only [Option.some.injEq, Prod.mk.injEq] at h
      rw [h.1]
  · cases hd : dateYmdHms et <;> rw [hd] at h
    · exact absurd h (by simp)
    · cases hl : lookupJS sm vs <;> rw [hl] at h
      · exact absurd h (by simp)
      · simp only [Option.some.injEq, Prod.mk.injEq] at h
        rw [h.1]

lemma lookupJS_mem (m : List (String × String)) (k v : String)
    (h : lookupJS m k = some v) : ∃ p ∈ m, p.2 = v := by
  unfold lookupJS at h
  cases hf : m.find? (fun p => p.1 == k) <;> rw [hf] at h
  · exact absurd h (by simp)
  · exact ⟨_, List.mem_of_find?_eq_some hf, by simpa using h⟩

/-- C1: through createPaymentLink, the Sequence Allocator's incremented counter
is written back to configuration before the gateway is ever called (first
conjunct, for every run), and in the spec's scenario (prefix map
invoice to INV, counter "41", year "2425") the run produces
linkIdFormatted "INV-2425-000042", persists one PaymentLink row with that
reference and linkStatus 0, and leaves paymentLinkNumber "42". -/
theorem C1_sequence_allocator_end_to_end :
    (∀ (gw : GatewayRequest → Option GatewayLink) (cfg : Config)
        (rows : List PaymentLinkRow) (cust : List ContactInfoRow)
        (lc : LinkConfig) (cid : Int) (lt : String),
        counterWriteFirst (createPaymentLinkRun gw cfg rows cust lc cid lt).trace = true)
    ∧ runC1.result.map (fun g => g.linkIdFormatted) = some "INV-2425-000042"
    ∧ runC1.rows.map (fun r => (r.linkIdFormatted, r.linkStatus))
        = [(JVal.str "INV-2425-000042", JVal.str "0")]
    ∧ runC1.cfg.paymentLinkNumber = "42" := by
  refine ⟨?_, rfl, rfl, rfl⟩
  intro gw cfg rows cust lc cid lt
  unfold createPaymentLinkRun
  split
  · rfl
  · dsimp only
    split <;> rfl

/-- C2: a stored link (pg_1, INV-2425-000042, status 0) receiving the PAID
PAYMENT_LINK_EVENT at 2025-01-01T10:00:00Z under status map PAID to "1" ends
with linkStatus "1", linkPaidAt "2025-01-01 10:00:00", and null
linkExpiredAt / linkFailedAt. -/
theorem C2_webhook_paid_scenario :
    (handleWebhook cfgC2 evC2 [rowC2]).2.map
        (fun r => (r.linkStatus, r.linkPaidAt, r.linkExpiredAt, r.linkFailedAt))
      = [(JVal.str "1", some "2025-01-01 10:00:00", none, none)] := rfl

/-- C3: when the gateway adapter returns the `false` sentinel, the orchestrator
returns `false` and persists no PaymentLink row: `linkDetails` is built from
property accesses on `false` (all `undefined`), the driver rejects the insert,
and the catch returns `false` with the table unchanged (the allocated
reference id is still consumed, cf. C1). -/
theorem C3_gateway_failure_no_persist
    (gw : GatewayRequest → Option GatewayLink) (hg : ∀ q, gw q = none)
    (cfg : Config) (rows : List PaymentLinkRow) (cust : List ContactInfoRow)
    (lc : LinkConfig) (cid : Int) (lt : String) :
    (createPaymentLinkRun gw cfg rows cust lc cid lt).result = none
    ∧ (createPaymentLinkRun gw cfg rows cust lc cid lt).rows = rows := by
  unfold createPaymentLinkRun
  simp only [hg]
  split
  · exact ⟨rfl, rfl⟩
  · exact ⟨rfl, rfl⟩

/-- Witness for C3 at the spec's concrete scenario with an always-failing
gateway. -/
theorem C3_gateway_failure_no_persist_witness :
    (createPaymentLinkRun (fun _ => none) cfgC1 [] custC1 linkCfgC1 7 "invoice").result = none
    ∧ (createPaymentLinkRun (fun _ => none) cfgC1 [] custC1 linkCfgC1 7 "invoice").rows = [] :=
  C3_gateway_failure_no_persist (fun _ => none) (fun _ => rfl) cfgC1 [] custC1
    linkCfgC1 7 "invoice"

/-- C4 counterexample: with the configured prefix map lacking the key "rent",
the allocation does NOT fail with a ConfigurationError — JavaScript renders the
missing lookup as the literal "undefined" inside the reference id — and the
counter IS incremented and persisted ("41" becomes "42"), contradicting both
parts of the claim. -/
theorem C4_missing_prefix_counterexample :
    generatePaymentId cfgC1 "rent"
      = ("undefined-2425-000042", { cfgC1 with paymentLinkNumber := "42" })
    ∧ ("42" : String) ≠ "41" :=
  ⟨rfl, by decide⟩

/-- C4 amended: for every linkType missing from the configured prefix map, the
allocation succeeds with the literal prefix "undefined" and the counter is
still incremented and written back (the spec's ConfigurationError and
no-increment behaviour do not exist in the code). -/
theorem C4_missing_prefix_amended (cfg : Config) (linkType : String)
    (h : lookupJS cfg.paymentLinkIdPrefixes linkType = none) :
    (generatePaymentId cfg linkType).1
      = "undefined-" ++ cfg.currentFinancialYear ++ "-"
        ++ stringPad (jsNumToString ((parseIntJS cfg.paymentLinkNumber).map (fun n => n + 1))) 6 '0'
    ∧ (generatePaymentId cfg linkType).2.paymentLinkNumber
      = jsNumToString ((parseIntJS cfg.paymentLinkNumber).map (fun n => n + 1)) := by
  unfold generatePaymentId
  rw [h]
  exact ⟨by simp [jsUndefObjStr, String.append_assoc], rfl⟩

/-- Witness for the amended C4 at the concrete configuration of the scenario. -/
theorem C4_missing_prefix_amended_witness :
    (generatePaymentId cfgC1 "rent").1 = "undefined-2425-000042"
    ∧ (generatePaymentId cfgC1 "rent").2.paymentLinkNumber = "42" :=
  ⟨(C4_missing_prefix_amended cfgC1 "rent" rfl).1,
   (C4_missing_prefix_amended cfgC1 "rent" rfl).2⟩

def suC5 : RzpSetup := { pgId := 3, accountNumber := "000111222333" }

def reqC5 : GatewayRequest :=
  { linkAmount := 500, currency := "INR", partialAmount := "0"
    linkIdFormatted := "INV-2425-000042", partialPayments := false
    customerDetails := { customer_name := "Jay Chauhan"
                         customer_phone := some "9876543210"
                         customer_email := some "jay.example.in" }
    linkExpiry := "2025-01-01T12:00:00Z", linkPurpose := "Invoice #1"
    linkNotification := "sms", autoReminders := false }

/-- A fixed successful mock provider response: Razorpay echoes the reference
id, the description and the requested amount — which the adapter sent in minor
units (times 100). -/
def echoProviderC5 : RzpLinkRequest → Option RzpLinkResponse := fun req =>
  some { error := false, id := "plink_MockFixed0001"
         reference_id := req.reference_id
         short_url := "https://rzp.io/i/mock0001"
         description := req.description
         amount := req.amount }

/-- C5 counterexample: for the fixed canonical request with linkAmount 500
(major units) and the fixed successful provider response, the adapter's
canonical result carries linkAmount 50000 — the provider's minor-unit echo —
not the major-unit 500 the claim requires. -/
theorem C5_minor_units_counterexample :
    (razorpayCreatePaymentLink (some suC5) echoProviderC5 reqC5).map (fun g => g.linkAmount)
      = some 50000
    ∧ ¬ ((razorpayCreatePaymentLink (some suC5) echoProviderC5 reqC5).map (fun g => g.linkAmount)
        = some 500) :=
  ⟨rfl, by decide⟩

/-- C5 amended: given any canonical request and a successful echoing provider
response with non-empty id and url, the Razorpay adapter returns a canonical
result with linkId, linkIdFormatted, linkGateway, linkUrl and linkAmount all
populated, and linkAmount expressed in MINOR currency units (the canonical
major-unit amount times 100), which the orchestrator divides by 100 before
display. -/
theorem C5_normalization_amended (su : RzpSetup) (lc : GatewayRequest)
    (respId respUrl : String) (hid : respId ≠ "") (hurl : respUrl ≠ "") :
    ∃ g : GatewayLink,
      razorpayCreatePaymentLink (some su)
        (fun req => some { error := false, id := respId
                           reference_id := req.reference_id
                           short_url := respUrl
                           description := req.description
                           amount := req.amount }) lc = some g
      ∧ g.linkId = respId ∧ g.linkId ≠ ""
      ∧ g.linkIdFormatted = lc.linkIdFormatted
      ∧ g.linkGateway = su.pgId
      ∧ g.linkUrl = respUrl ∧ g.linkUrl ≠ ""
      ∧ g.linkAmount = lc.linkAmount * 100 :=
  ⟨_, rfl, rfl, hid, rfl, rfl, rfl, hurl, rfl⟩

/-- Witness for the amended C5 at the fixed request and mock response of the
counterexample. -/
theorem C5_normalization_amended_witness :
    ∃ g : GatewayLink,
      razorpayCreatePaymentLink (some suC5)
        (fun req => some { error := false, id := "plink_MockFixed0001"
                           reference_id := req.reference_id
                           short_url := "https://rzp.io/i/mock0001"
                           description := req.description
                           amount := req.amount }) reqC5 = some g
      ∧ g.linkId = "plink_MockFixed0001" ∧ g.linkId ≠ ""
      ∧ g.linkIdFormatted = reqC5.linkIdFormatted
      ∧ g.linkGateway = suC5.pgId
      ∧ g.linkUrl = "https://rzp.io/i/mock0001" ∧ g.linkUrl ≠ ""
      ∧ g.linkAmount = reqC5.linkAmount * 100 :=
  C5_normalization_amended suC5 reqC5 "plink_MockFixed0001" "https://rzp.io/i/mock0001"
    (by decide) (by decide)

/-- Number of non-null terminal timestamps on a row. -/
def terminalStampCount (r : PaymentLinkRow) : Nat :=
  (if r.linkPaidAt.isSome then 1 else 0) + (if r.linkExpiredAt.isSome then 1 else 0)
    + (if r.linkFailedAt.isSome then 1 else 0)

/-- C6 counterexample: starting from the freshly created link of the scenario,
the handled sequence EXPIRED then PAID leaves the link out of CREATED
(status "1") with TWO non-null terminal timestamps (linkPaidAt and
linkExpiredAt), refuting "exactly one ... is non-null" for sequences of
handled events: the reconciler sets the new event's timestamp but never clears
the ones written by earlier events. -/
theorem C6_exclusivity_counterexample :
    (applyWebhookEvents cfgStd [evExpired, evPaid] [rowC2]).map
        (fun r => (r.linkStatus, r.linkPaidAt.isSome, r.linkExpiredAt.isSome,
                   r.linkFailedAt.isSome))
      = [(JVal.str "1", true, true, false)]
    ∧ (applyWebhookEvents cfgStd [evExpired, evPaid] [rowC2]).map terminalStampCount
      = [2] :=
  ⟨rfl, rfl⟩

/-- C6 amended: a PaymentLink leaves CREATED with exactly one non-null terminal
timestamp after ONE handled webhook event carrying a recognized terminal vendor
status; sequences of several events with different terminal statuses can
accumulate more than one (see the counterexample). -/
theorem C6_exclusivity_amended (cfg : Config) (ev : WebhookEvent)
    (r0 : PaymentLinkRow) (f : TsField) (v t : String)
    (hp : r0.linkPaidAt = none) (he : r0.linkExpiredAt = none)
    (hf0 : r0.linkFailedAt = none)
    (htype : ev.type = "PAYMENT_LINK_EVENT")
    (hf : tsFieldFor ev.data.link_status = some f)
    (hv : lookupJS cfg.cashfreeLinkStatusMap ev.data.link_status = some v)
    (ht : dateYmdHms ev.event_time = some t)
    (hm : matchesLink ev.data.cf_link_id ev.data.link_id r0 = true) :
    (handleWebhook cfg ev [r0]).2 = [applyLinkUpdate v (some (f, t)) r0]
    ∧ terminalStampCount (applyLinkUpdate v (some (f, t)) r0) = 1
    ∧ (applyLinkUpdate v (some (f, t)) r0).linkStatus = JVal.str v := by
  refine ⟨?_, ?_, applyLinkUpdate_status v (some (f, t)) r0⟩
  · simp only [handleWebhook, htype, beq_self_eq_true, if_true,
      updatePaymentLinkStatus, updateDecision, hf, ht, hv, List.map_cons,
      List.map_nil, hm]
  · cases f <;> simp [applyLinkUpdate, terminalStampCount, hp, he, hf0]

/-- Witness for the amended C6 at the C2 scenario (a single PAID event on a
fresh link). -/
theorem C6_exclusivity_amended_witness :
    (handleWebhook cfgC2 evC2 [rowC2]).2
      = [applyLinkUpdate "1" (some (TsField.paid, "2025-01-01 10:00:00")) rowC2]
    ∧ terminalStampCount
        (applyLinkUpdate "1" (some (TsField.paid, "2025-01-01 10:00:00")) rowC2) = 1
    ∧ (applyLinkUpdate "1" (some (TsField.paid, "2025-01-01 10:00:00")) rowC2).linkStatus
      = JVal.str "1" :=
  C6_exclusivity_amended cfgC2 evC2 rowC2 TsField.paid "1" "2025-01-01 10:00:00"
    rfl rfl rfl rfl rfl rfl rfl (by decide)

lemma map_if_update_idem (p : PaymentLinkRow → Bool)
    (g : PaymentLinkRow → PaymentLinkRow)
    (hp : ∀ r, p (g r) = p r) (hg : ∀ r, g (g r) = g r) :
    ∀ rows : List PaymentLinkRow,
      (rows.map (fun r => if p r then g r else r)).map (fun r => if p r then g r else r)
        = rows.map (fun r => if p r then g r else r)
  | [] => rfl
  | a :: l => by
    simp only [List.map_cons, List.cons.injEq]
    constructor
    · cases hpa : p a <;> simp [hpa, hp, hg]
    · exact map_if_update_idem p g hp hg l

lemma updatePaymentLinkStatus_idem (sm : List (String × String)) (p l vs et : String)
    (rows : List PaymentLinkRow) :
    (updatePaymentLinkStatus sm p l vs et (updatePaymentLinkStatus sm p l vs et rows).2).2
      = (updatePaymentLinkStatus sm p l vs et rows).2 := by
  unfold updatePaymentLinkStatus
  cases hd : updateDecision sm vs et with
  | none => rfl
  | some pr =>
    obtain ⟨v, ts⟩ := pr
    exact map_if_update_idem (matchesLink p l) (applyLinkUpdate v ts)
      (fun r => matchesLink_applyLinkUpdate p l v ts r)
      (fun r => applyLinkUpdate_idem v ts r) rows

/-- C7: webhook handling is idempotent on the stored table — for every
configuration, every webhook event and every table state, delivering the
identical event twice leaves exactly the state reached after delivering it
once (so the final linkStatus and the non-null terminal timestamps coincide):
the UPDATE writes values computed from the event alone, and the match keys
(linkPgId, linkIdFormatted) are not among the updated columns. -/
theorem C7_webhook_idempotent (cfg : Config) (ev : WebhookEvent)
    (rows : List PaymentLinkRow) :
    (handleWebhook cfg ev (handleWebhook cfg ev rows).2).2
      = (handleWebhook cfg ev rows).2 := by
  by_cases hb : ev.type == "PAYMENT_LINK_EVENT"
  · simp only [handleWebhook, hb, if_true]
    exact updatePaymentLinkStatus_idem _ _ _ _ _ rows
  · simp [handleWebhook, hb]

lemma map_no_match (p : PaymentLinkRow → Bool)
    (g : PaymentLinkRow → PaymentLinkRow) :
    ∀ rows : List PaymentLinkRow, (∀ r ∈ rows, p r = false) →
      rows.map (fun r => if p r then g r else r) = rows
  | [], _ => rfl
  | a :: l, h => by
    simp only [List.map_cons]
    rw [map_no_match p g l (fun r hr => h r (List.mem_cons_of_mem a hr))]
    simp [h a (List.mem_cons_self a l)]

/-- C8: the webhook endpoint always responds 200; an event whose type is not
PAYMENT_LINK_EVENT falls through the switch and changes no row; and a
PAYMENT_LINK_EVENT whose (pgLinkId, linkIdFormatted) pair matches no stored
row changes no row either (the UPDATE matches zero rows, or the aborted
UPDATE's error is caught). -/
theorem C8_unknown_webhook_noop (cfg : Config) (ev : WebhookEvent)
    (rows : List PaymentLinkRow) :
    (getPaymentDetails cfg ev rows).1 = 200
    ∧ (ev.type ≠ "PAYMENT_LINK_EVENT" → (handleWebhook cfg ev rows).2 = rows)
    ∧ ((∀ r ∈ rows, matchesLink ev.data.cf_link_id ev.data.link_id r = false) →
        (handleWebhook cfg ev rows).2 = rows) := by
  refine ⟨rfl, ?_, ?_⟩
  · intro h
    simp [handleWebhook, h]
  · intro h
    by_cases hb : ev.type == "PAYMENT_LINK_EVENT"
    · simp only [handleWebhook, hb, if_true]
      unfold updatePaymentLinkStatus
      cases hd : updateDecision cfg.cashfreeLinkStatusMap ev.data.link_status ev.event_time with
      | none => rfl
      | some pr =>
        obtain ⟨v, ts⟩ := pr
        exact map_no_match _ _ rows h
    · simp [handleWebhook, hb]

/-- A webhook event of an unrecognized type. -/
def evC8unknown : WebhookEvent :=
  { type := "PAYMENT_EVENT"
    data := { cf_link_id := "pg_1", link_id := "INV-2425-000042"
              link_amount_paid := "0", link_status := "PAID" }
    event_time := "2025-01-01T10:00:00Z" }

/-- A PAYMENT_LINK_EVENT whose identifier pair matches no stored link. -/
def evC8nomatch : WebhookEvent :=
  { type := "PAYMENT_LINK_EVENT"
    data := { cf_link_id := "pg_999", link_id := "INV-2425-000099"
              link_amount_paid := "0", link_status := "PAID" }
    event_time := "2025-01-01T10:00:00Z" }

/-- Witness for C8: both no-op cases at concrete inputs, plus the 200 reply. -/
theorem C8_unknown_webhook_noop_witness :
    (handleWebhook cfgStd evC8unknown [rowC2]).2 = [rowC2]
    ∧ (handleWebhook cfgStd evC8nomatch [rowC2]).2 = [rowC2]
    ∧ (getPaymentDetails cfgStd evC8unknown [rowC2]).1 = 200 :=
  ⟨(C8_unknown_webhook_noop cfgStd evC8unknown [rowC2]).2.1 (by decide),
   (C8_unknown_webhook_noop cfgStd evC8nomatch [rowC2]).2.2 (by decide),
   (C8_unknown_webhook_noop cfgStd evC8unknown [rowC2]).1⟩

/-- The effect of one webhook delivery on one row (pointwise form of the
reconciler's UPDATE). -/
def webhookRowStep (cfg : Config) (ev : WebhookEvent) (r : PaymentLinkRow) :
    PaymentLinkRow :=
  if ev.type == "PAYMENT_LINK_EVENT" then
    match updateDecision cfg.cashfreeLinkStatusMap ev.data.link_status ev.event_time with
    | none => r
    | some (v, ts) =>
      if matchesLink ev.data.cf_link_id ev.data.link_id r then applyLinkUpdate v ts r
      else r
  else r

lemma webhookRowStep_skip (cfg : Config) (ev : WebhookEvent)
    (hb : (ev.type == "PAYMENT_LINK_EVENT") = false) (r : PaymentLinkRow) :
    webhookRowStep cfg ev r = r := by
  unfold webhookRowStep
  rw [hb]
  rfl

lemma webhookRowStep_aborted (cfg : Config) (ev : WebhookEvent)
    (hb : (ev.type == "PAYMENT_LINK_EVENT") = true)
    (hd : updateDecision cfg.cashfreeLinkStatusMap ev.data.link_status ev.event_time = none)
    (r : PaymentLinkRow) : webhookRowStep cfg ev r = r := by
  unfold webhookRowStep
  rw [if_pos hb, hd]

lemma webhookRowStep_applies (cfg : Config) (ev : WebhookEvent)
    (hb : (ev.type == "PAYMENT_LINK_EVENT") = true) (v : String)
    (ts : Option (TsField × String))
    (hd : updateDecision cfg.cashfreeLinkStatusMap ev.data.link_status ev.event_time
      = some (v, ts)) (r : PaymentLinkRow) :
    webhookRowStep cfg ev r
      = if matchesLink ev.data.cf_link_id ev.data.link_id r then applyLinkUpdate v ts r
        else r := by
  unfold webhookRowStep
  rw [if_pos hb, hd]

lemma handleWebhook_rows_map (cfg : Config) (ev : WebhookEvent)
    (rows : List PaymentLinkRow) :
    (handleWebhook cfg ev rows).2 = rows.map (webhookRowStep cfg ev) := by
  by_cases hb : ev.type == "PAYMENT_LINK_EVENT"
  · simp only [handleWebhook, hb, if_true]
    unfold updatePaymentLinkStatus
    cases hd : updateDecision cfg.cashfreeLinkStatusMap ev.data.link_status ev.event_time with
    | none =>
      have hfun : webhookRowStep cfg ev = fun r => r := by
        funext r
        exact webhookRowStep_aborted cfg ev hb hd r
      rw [hfun]
      simp
    | some pr =>
      obtain ⟨v, ts⟩ := pr
      have hfun : webhookRowStep cfg ev = fun r =>
          if matchesLink ev.data.cf_link_id ev.data.link_id r then applyLinkUpdate v ts r
          else r := by
        funext r
        exact webhookRowStep_applies cfg ev hb v ts hd r
      rw [hfun]
  · have hb0 : (ev.type == "PAYMENT_LINK_EVENT") = false := by
      simpa using hb
    have hfun : webhookRowStep cfg ev = fun r => r := by
      funext r
      exact webhookRowStep_skip cfg ev hb0 r
    simp [handleWebhook, hb0, hfun]

lemma webhookRowStep_keeps (cfg : Config) (ev : WebhookEvent)
    (hmap : ∀ p ∈ cfg.cashfreeLinkStatusMap, p.2 ≠ "0")
    (r : PaymentLinkRow) (hs : r.linkStatus ≠ JVal.str "0") :
    (webhookRowStep cfg ev r).linkStatus ≠ JVal.str "0" := by
  by_cases hb : ev.type == "PAYMENT_LINK_EVENT"
  · cases hd : updateDecision cfg.cashfreeLinkStatusMap ev.data.link_status ev.event_time with
    | none => rw [webhookRowStep_aborted cfg ev hb hd r]; exact hs
    | some pr =>
      obtain ⟨v, ts⟩ := pr
      rw [webhookRowStep_applies cfg ev hb v ts hd r]
      by_cases hm : matchesLink ev.data.cf_link_id ev.data.link_id r
      · rw [if_pos hm, applyLinkUpdate_status]
        intro hcontra
        injection hcontra with h0
        obtain ⟨p, hpmem, hpv⟩ :=
          lookupJS_mem _ _ _ (updateDecision_lookup _ _ _ _ _ hd)
        exact hmap p hpmem (hpv.trans h0)
      · rw [if_neg hm]; exact hs
  · rw [webhookRowStep_skip cfg ev (by simpa using hb) r]
    exact hs

/-- C9 counterexample: from the fresh scenario link, the handled sequence
EXPIRED then PAID moves linkStatus 0 to 2 (EXPIRED) and then back down to 1
(PAID) — a transition from EXPIRED(2) to PAID(1), which is not forward in the
canonical order, refuting "linkStatus only moves forward through the canonical
states" (the source never guards terminal states against overwrites). -/
theorem C9_backward_transition_counterexample :
    (applyWebhookEvents cfgStd [evExpired] [rowC2]).map (fun r => r.linkStatus)
      = [JVal.str "2"]
    ∧ (applyWebhookEvents cfgStd [evExpired, evPaid] [rowC2]).map (fun r => r.linkStatus)
      = [JVal.str "1"] :=
  ⟨rfl, rfl⟩

/-- C9 amended: under any status map with no "0" value (the configured map has
values 1/2/4/5 only), once a stored link's linkStatus differs from CREATED(0)
it never returns to CREATED(0), whatever handled webhook events follow —
though terminal states may still overwrite one another in any order. -/
theorem C9_never_back_to_created (cfg : Config)
    (hmap : ∀ p ∈ cfg.cashfreeLinkStatusMap, p.2 ≠ "0")
    (events : List WebhookEvent) :
    ∀ (rows : List PaymentLinkRow) (i : Nat) (r r1 : PaymentLinkRow),
      rows.get? i = some r → r.linkStatus ≠ JVal.str "0" →
      (applyWebhookEvents cfg events rows).get? i = some r1 →
      r1.linkStatus ≠ JVal.str "0" := by
  induction events with
  | nil =>
    intro rows i r r1 h0 hs h1
    unfold applyWebhookEvents at h1
    simp only [List.foldl_nil] at h1
    rw [h0] at h1
    injection h1 with h2
    rw [← h2]; exact hs
  | cons e es ih =>
    intro rows i r r1 h0 hs h1
    have hrows : (handleWebhook cfg e rows).2.get? i
        = some (webhookRowStep cfg e r) := by
      rw [handleWebhook_rows_map, List.get?_map, h0]; rfl
    have h1x : (applyWebhookEvents cfg es (handleWebhook cfg e rows).2).get? i
        = some r1 := by
      unfold applyWebhookEvents at h1 ⊢
      simpa only [List.foldl_cons] using h1
    exact ih (handleWebhook cfg e rows).2 i _ r1 hrows
      (webhookRowStep_keeps cfg e hmap r hs) h1x

def rowExpiredC9 : PaymentLinkRow :=
  { rowC2 with linkStatus := .str "2", linkExpiredAt := some "2025-01-02 00:00:00" }

/-- Witness for the amended C9: an EXPIRED link hit by a later PAID event
stays away from CREATED(0). -/
theorem C9_never_back_to_created_witness :
    ∃ r1, (applyWebhookEvents cfgStd [evPaid] [rowExpiredC9]).get? 0 = some r1
      ∧ r1.linkStatus ≠ JVal.str "0" := by
  refine ⟨applyLinkUpdate "1" (some (TsField.paid, "2025-01-03 08:30:00")) rowExpiredC9,
    rfl, ?_⟩
  exact C9_never_back_to_created cfgStd (by decide) [evPaid] [rowExpiredC9] 0
    rowExpiredC9 _ rfl (by decide) rfl

/-- C10: for any payoutType outside upi/bank/cards, the Razorpay payout path
does not fail fast: the fund-account switch leaves the empty object, the
provider disbursement request is still issued with `fund_account = {}`, and
the call returns exactly what the provider yields — `false` only when the
provider call itself errors. -/
theorem C10_unknown_payout_type (su : RzpSetup)
    (provider : RzpPayoutRequest → Option RzpPayoutResponse)
    (lc : PayoutLinkConfig) (t : String)
    (h1 : t ≠ "upi") (h2 : t ≠ "bank") (h3 : t ≠ "cards") :
    buildFundAccount lc t = some FundAccount.emptyObj
    ∧ razorpayCreatePayoutLink (some su) provider lc t
      = (match provider (mkPayoutRequest su lc FundAccount.emptyObj) with
         | none => none
         | some resp => if resp.error then none else some resp) := by
  have hfa : buildFundAccount lc t = some FundAccount.emptyObj := by
    simp [buildFundAccount, h1, h2, h3]
  refine ⟨hfa, ?_⟩
  unfold razorpayCreatePayoutLink
  rw [hfa]

def payoutLcC10 : PayoutLinkConfig :=
  { linkAmount := 100, currency := "INR", linkIdFormatted := "PAYOUT-2425-000043"
    customer_name := "Jay Chauhan", purpose := "refund"
    description := "test payout"
    upiId := none, bankDetails := none, cardDetails := none }

/-- Witness for C10 at payoutType "wallet" with a succeeding provider stub. -/
theorem C10_unknown_payout_type_witness :
    buildFundAccount payoutLcC10 "wallet" = some FundAccount.emptyObj
    ∧ razorpayCreatePayoutLink (some suC5)
        (fun _ => some { error := false, payload := "raw-provider-body" })
        payoutLcC10 "wallet"
      = some { error := false, payload := "raw-provider-body" } := by
  have h := C10_unknown_payout_type suC5
    (fun _ => some { error := false, payload := "raw-provider-body" })
    payoutLcC10 "wallet" (by decide) (by decide) (by decide)
  exact ⟨h.1, h.2⟩

end AdminPanel
